import Mathlib

/-
Verification of the output-rendering dispatch and streaming bridge of
rasa_core/channels/channel.py.

The Python classes are shallowly embedded as follows:
- dict payloads handed to send_response become the Payload structure with
  Option fields (a missing key is none); Python truthiness tests
  (if message.get(k)) become strTruthy / listTruthy;
- the message dicts built by CollectingOutputChannel._message (after
  utils.remove_none_values has dropped the None entries) become the
  RenderedMessage structure, where a none field is an omitted key;
- dynamic method dispatch becomes an explicit record of methods
  (OutputChannel); each concrete class is one record value wiring its
  overrides together with the inherited defaults;
- raising an exception becomes returning Except.error; state mutation
  becomes explicit state passing.
-/

/-- A button dict: the fields read by button_to_string. -/
structure Button where
  title : String
  payload : String
deriving DecidableEq

/-- An element dict: the fields read by OutputChannel.send_custom_message. -/
structure Element where
  title : String
  subtitle : String
  buttons : List Button
deriving DecidableEq

/-- The structured payload handed to send_response: a dict with the optional
keys text, buttons, elements, image, attachment. A missing key is none. -/
structure Payload where
  text : Option String
  buttons : Option (List Button)
  elements : Option (List Element)
  image : Option String
  attachment : Option String
deriving DecidableEq

/-- The message object built by CollectingOutputChannel._message after
utils.remove_none_values: a none field stands for a key that was filtered
out of the stored dict. -/
structure RenderedMessage where
  recipient_id : String
  text : Option String
  image : Option String
  buttons : Option (List Button)
  attachment : Option String
deriving DecidableEq

/-- Python truthiness of an optional string value: a missing key and the
empty string are falsy. -/
def strTruthy : Option String → Bool
  | none => false
  | some s => !(s == (""))

/-- Python truthiness of an optional list value: a missing key and the empty
list are falsy. -/
def listTruthy {α : Type} : Option (List α) → Bool
  | none => false
  | some l => !l.isEmpty

/-- One step bound of pySplitGo: each step consumes at least one character,
so the length of the input is enough fuel. -/
def pySplitGo (sep : List Char) : Nat → List Char → List Char → List (List Char)
  | _, acc, [] => [acc.reverse]
  | 0, acc, rest => [acc.reverse ++ rest]
  | fuel + 1, acc, c :: rest =>
    if sep.isPrefixOf (c :: rest) then
      acc.reverse :: pySplitGo sep fuel [] (List.drop sep.length (c :: rest))
    else
      pySplitGo sep fuel (c :: acc) rest

/-- Model of Python str.split(sep) for a non-empty separator: scan left to
right, cutting at each non-overlapping occurrence of sep; the empty string
yields [""], and a trailing separator yields a trailing empty segment. -/
def pySplit (sep : String) (s : String) : List String :=
  (pySplitGo sep.data s.data.length [] s.data).map (fun l => String.mk l)

/-- Whether sep occurs as a contiguous run inside the character list. -/
def containsSeq (sep : List Char) : List Char → Bool
  | [] => sep.isPrefixOf []
  | c :: rest => sep.isPrefixOf (c :: rest) || containsSeq sep rest

/-- The failures an output channel can raise. -/
inductive ChannelError
  | notImplementedTextMessage
  | noneTypeHasNoSplit
deriving DecidableEq

/-- button_to_string: "{idx}: {title} ({val})" with idx rendered 1-based. -/
def button_to_string (button : Button) (idx : Nat) : String :=
  toString (idx + 1) ++ (": ") ++ button.title ++ (" (") ++ button.payload ++ (")")

/-- The method suite of an output channel instance over channel state σ:
one field per overridable send method. send_response itself is defined once
(sendResponse below), as in the Python base class. -/
structure OutputChannel (σ : Type) where
  send_text_message : String → Option String → σ → Except ChannelError σ
  send_image_url : String → String → σ → Except ChannelError σ
  send_attachment : String → String → σ → Except ChannelError σ
  send_text_with_buttons : String → Option String → List Button → σ → Except ChannelError σ
  send_custom_message : String → List Element → σ → Except ChannelError σ

/-- Base-class send_text_message: raises NotImplementedError. -/
def baseSendTextMessage {σ : Type} : String → Option String → σ → Except ChannelError σ :=
  fun _ _ _ => Except.error ChannelError.notImplementedTextMessage

/-- Base-class send_image_url over a given send_text_message:
posts "Image: {url}" as a plain text message. -/
def defaultSendImageUrl {σ : Type}
    (stm : String → Option String → σ → Except ChannelError σ)
    (recipient_id : String) (image_url : String) (s : σ) : Except ChannelError σ :=
  stm recipient_id (some (("Image: ") ++ image_url)) s

/-- Base-class send_attachment over a given send_text_message:
posts "Attachment: {attachment}" as a plain text message. -/
def defaultSendAttachment {σ : Type}
    (stm : String → Option String → σ → Except ChannelError σ)
    (recipient_id : String) (attachment : String) (s : σ) : Except ChannelError σ :=
  stm recipient_id (some (("Attachment: ") ++ attachment)) s

/-- The enumerate loop of the base-class send_text_with_buttons: one
send_text_message per button, with its 0-based enumeration index. -/
def buttonLoop {σ : Type}
    (stm : String → Option String → σ → Except ChannelError σ)
    (recipient_id : String) : Nat → List Button → σ → Except ChannelError σ
  | _, [], s => Except.ok s
  | idx, b :: rest, s =>
    (stm recipient_id (some (button_to_string b idx)) s).bind
      (buttonLoop stm recipient_id (idx + 1) rest)

/-- Base-class send_text_with_buttons over a given send_text_message:
the body text first, then one text message per button. -/
def defaultSendTextWithButtons {σ : Type}
    (stm : String → Option String → σ → Except ChannelError σ)
    (recipient_id : String) (message : Option String) (buttons : List Button)
    (s : σ) : Except ChannelError σ :=
  (stm recipient_id message s).bind (buttonLoop stm recipient_id 0 buttons)

/-- The element loop of the base-class send_custom_message: for each element,
one send_text_with_buttons call with "{title} : {subtitle}" as the text. -/
def elementLoop {σ : Type}
    (stwb : String → Option String → List Button → σ → Except ChannelError σ)
    (recipient_id : String) : List Element → σ → Except ChannelError σ
  | [], s => Except.ok s
  | e :: rest, s =>
    (stwb recipient_id (some (e.title ++ (" : ") ++ e.subtitle)) e.buttons s).bind
      (elementLoop stwb recipient_id rest)

/-- Base-class send_custom_message over a given send_text_with_buttons. -/
def defaultSendCustomMessage {σ : Type}
    (stwb : String → Option String → List Button → σ → Except ChannelError σ)
    (recipient_id : String) (elements : List Element) (s : σ) : Except ChannelError σ :=
  elementLoop stwb recipient_id elements s

/-- A channel that overrides only send_text_message, inheriting every
base-class default (the minimal implementation the base class asks for). -/
def minimalChannel {σ : Type}
    (stm : String → Option String → σ → Except ChannelError σ) : OutputChannel σ :=
  OutputChannel.mk
    stm
    (defaultSendImageUrl stm)
    (defaultSendAttachment stm)
    (defaultSendTextWithButtons stm)
    (defaultSendCustomMessage (defaultSendTextWithButtons stm))

/-- The bare base class: no send method overridden, so everything bottoms
out in the NotImplementedError of send_text_message. -/
def baseChannel (σ : Type) : OutputChannel σ :=
  minimalChannel baseSendTextMessage

/-- OutputChannel.send_response: the shared dispatch. The elements branch,
else the buttons branch, else the text branch; independently an image
message when image is truthy and an attachment message when attachment is
truthy. Each test is Python truthiness of message.get(key). -/
def sendResponse {σ : Type} (ch : OutputChannel σ) (recipient_id : String)
    (message : Payload) (s : σ) : Except ChannelError σ :=
  (if listTruthy message.elements then
      ch.send_custom_message recipient_id (message.elements.getD []) s
    else if listTruthy message.buttons then
      ch.send_text_with_buttons recipient_id message.text (message.buttons.getD []) s
    else if strTruthy message.text then
      ch.send_text_message recipient_id message.text s
    else Except.ok s).bind
    (fun s1 =>
      (if strTruthy message.image then
          ch.send_image_url recipient_id (message.image.getD ("")) s1
        else Except.ok s1).bind
        (fun s2 =>
          if strTruthy message.attachment then
            ch.send_attachment recipient_id (message.attachment.getD ("")) s2
          else Except.ok s2))

/-- CollectingOutputChannel._message followed by utils.remove_none_values:
build the stored dict; a none argument is a key filtered from the dict.
(remove_none_values itself lives in rasa_core.utils, outside this file's
sources; per the in-channel comment and the spec it drops exactly the
None-valued entries, which the Option encoding captures.) -/
def buildMessage (recipient_id : String) (text image : Option String)
    (buttons : Option (List Button)) (attachment : Option String) : RenderedMessage :=
  RenderedMessage.mk recipient_id text image buttons attachment

/-- CollectingOutputChannel.send_text_message over an abstract
_persist_message: split the text on "\n\n" and persist one message per
part, in order. Calling it with None raises (None has no split). -/
def collectingSendTextMessage {σ : Type} (persist : RenderedMessage → σ → σ)
    (recipient_id : String) (message : Option String) (s : σ) : Except ChannelError σ :=
  match message with
  | none => Except.error ChannelError.noneTypeHasNoSplit
  | some m =>
    Except.ok ((pySplit ("\n\n") m).foldl
      (fun acc part => persist (buildMessage recipient_id (some part) none none none) acc) s)

/-- CollectingOutputChannel.send_text_with_buttons over an abstract
_persist_message: persist one message carrying the text and the buttons. -/
def collectingSendTextWithButtons {σ : Type} (persist : RenderedMessage → σ → σ)
    (recipient_id : String) (message : Option String) (buttons : List Button)
    (s : σ) : Except ChannelError σ :=
  Except.ok (persist (buildMessage recipient_id message none (some buttons) none) s)

/-- CollectingOutputChannel.send_image_url over an abstract
_persist_message: persist one message carrying the image url. -/
def collectingSendImageUrl {σ : Type} (persist : RenderedMessage → σ → σ)
    (recipient_id : String) (image_url : String) (s : σ) : Except ChannelError σ :=
  Except.ok (persist (buildMessage recipient_id none (some image_url) none none) s)

/-- CollectingOutputChannel.send_attachment over an abstract
_persist_message: persist one message carrying the attachment. -/
def collectingSendAttachment {σ : Type} (persist : RenderedMessage → σ → σ)
    (recipient_id : String) (attachment : String) (s : σ) : Except ChannelError σ :=
  Except.ok (persist (buildMessage recipient_id none none none (some attachment)) s)

/-- The method suite shared by CollectingOutputChannel and
QueueOutputChannel, parameterised by _persist_message (the only method the
queue variant overrides). send_custom_message is not overridden, so it is
the base-class default wired to the overridden send_text_with_buttons. -/
def collectingMethods {σ : Type} (persist : RenderedMessage → σ → σ) : OutputChannel σ :=
  OutputChannel.mk
    (collectingSendTextMessage persist)
    (collectingSendImageUrl persist)
    (collectingSendAttachment persist)
    (collectingSendTextWithButtons persist)
    (defaultSendCustomMessage (collectingSendTextWithButtons persist))

/-- CollectingOutputChannel._persist_message: append to self.messages. -/
def listPersist (m : RenderedMessage) (messages : List RenderedMessage) : List RenderedMessage :=
  messages ++ [m]

/-- CollectingOutputChannel: persists into an in-memory ordered list. -/
def collectingChannel : OutputChannel (List RenderedMessage) :=
  collectingMethods listPersist

/-- Model of multiprocessing.Queue as used here: a FIFO whose items are
listed in push order (put appends at the back, get pops at the front). -/
structure FifoQueue (α : Type) where
  items : List α
deriving DecidableEq

/-- Queue.put: enqueue at the back. -/
def FifoQueue.put {α : Type} (q : FifoQueue α) (a : α) : FifoQueue α :=
  FifoQueue.mk (q.items ++ [a])

/-- QueueOutputChannel._persist_message: put the message on the queue. -/
def queuePersist (m : RenderedMessage) (q : FifoQueue RenderedMessage) : FifoQueue RenderedMessage :=
  q.put m

/-- QueueOutputChannel: CollectingOutputChannel with _persist_message
redirected to Queue.put. -/
def queueChannel : OutputChannel (FifoQueue RenderedMessage) :=
  collectingMethods queuePersist

/-- One observed send call, used to trace which method send_response
dispatches to. -/
inductive TraceCall
  | text (recipient_id : String) (message : Option String)
  | image (recipient_id : String) (image_url : String)
  | attach (recipient_id : String) (attachment : String)
  | textWithButtons (recipient_id : String) (message : Option String) (buttons : List Button)
  | custom (recipient_id : String) (elements : List Element)
deriving DecidableEq

/-- An instrumented sink that records each send method invocation: it
overrides all five methods, so the trace shows exactly what the shared
send_response dispatch invokes. -/
def traceChannel : OutputChannel (List TraceCall) :=
  OutputChannel.mk
    (fun r m s => Except.ok (s ++ [TraceCall.text r m]))
    (fun r u s => Except.ok (s ++ [TraceCall.image r u]))
    (fun r a s => Except.ok (s ++ [TraceCall.attach r a]))
    (fun r m b s => Except.ok (s ++ [TraceCall.textWithButtons r m b]))
    (fun r es s => Except.ok (s ++ [TraceCall.custom r es]))

/-- A sink that overrides only send_text_message, emitting exactly one
record per call: the minimal implementation the base class contract asks
for, used to count the messages the default dispatch produces. -/
def textOnlyChannel : OutputChannel (List (String × Option String)) :=
  minimalChannel (fun r m s => Except.ok (s ++ [(r, m)]))

/-- JSON string escaping for the characters the messages here can carry
(model of the escaping json.dumps applies). -/
def jsonEscapeChar : Char → String
  | '\\' => ("\\\\")
  | '\"' => ("\\\"")
  | '\n' => ("\\n")
  | '\t' => ("\\t")
  | '\r' => ("\\r")
  | c => String.mk [c]

/-- Model of the json.dumps rendering of a string. -/
def jsonStr (s : String) : String :=
  ("\"") ++ String.join (s.data.map jsonEscapeChar) ++ ("\"")

/-- Model of the json.dumps rendering of a button dict. -/
def buttonJson (b : Button) : String :=
  ("\x7b\"title\": ") ++ jsonStr b.title ++ (", \"payload\": ") ++ jsonStr b.payload ++ ("\x7d")

/-- Render one present key of the stored dict; an absent (none) field
contributes no key at all. -/
def jsonField (key : String) : Option String → List String
  | none => []
  | some rendered => [("\"") ++ key ++ ("\": ") ++ rendered]

/-- Model of json.dumps on a stored message dict: keys in insertion order
(recipient_id, text, image, buttons, attachment), absent fields omitted. -/
def jsonDumps (m : RenderedMessage) : String :=
  ("\x7b") ++
    String.intercalate (", ")
      ([("\"recipient_id\": ") ++ jsonStr m.recipient_id] ++
        jsonField ("text") (m.text.map jsonStr) ++
        jsonField ("image") (m.image.map jsonStr) ++
        jsonField ("buttons")
          (m.buttons.map (fun bs => ("[") ++ String.intercalate (", ") (bs.map buttonJson) ++ ("]"))) ++
        jsonField ("attachment") (m.attachment.map jsonStr)) ++
  ("\x7d")

/-- UserMessage.DEFAULT_SENDER_ID. -/
def DEFAULT_SENDER_ID : String := ("default")

/-- The UserMessage fields this core's claims are about. The attribute
values are kept as the Python object can hold them (possibly None), so the
model shows faithfully what the dialogue callback observes. The
output_channel attribute (the given sink, else a fresh
CollectingOutputChannel) and parse_data (stored unchanged) are orthogonal
to these fields and are modelled by the channel values above. -/
structure UserMessage where
  text : Option String
  sender_id : Option String
deriving DecidableEq

/-- UserMessage.__init__ on the text and sender_id arguments: the text is
stored unchanged; a None sender_id is replaced by DEFAULT_SENDER_ID. -/
def UserMessage.make (text : Option String) (sender_id : Option String) : UserMessage :=
  UserMessage.mk text
    (match sender_id with
      | some s => some s
      | none => some DEFAULT_SENDER_ID)

/-- The fields the REST webhook reads from the request body. A missing key
is none. -/
structure WebRequest where
  sender : Option String
  message : Option String
deriving DecidableEq

/-- RestInput._extract_sender: req.json.get("sender", None). -/
def extractSender (req : WebRequest) : Option String := req.sender

/-- RestInput._extract_message: req.json.get("message", None). -/
def extractMessage (req : WebRequest) : Option String := req.message

/-- An item on the streaming queue: either a message dict put there by
QueueOutputChannel._persist_message, or the string sentinel "DONE". The
two cannot collide because a dict never equals a string. -/
inductive QueueItem
  | message (m : RenderedMessage)
  | sentinel
deriving DecidableEq

/-- RestInput.on_message_wrapper, as the sequence of queue items it puts.
The dialogue callback on_new_message is a black box here: it is the list
of messages it pushes through the QueueOutputChannel before finishing and
by whether it returns normally. The body is straight-line Python — call
the callback, then queue.put("DONE") — so when the callback raises, the
sentinel put is never reached and the worker thread dies. -/
def on_message_wrapper (emitted : List RenderedMessage) (returnsNormally : Bool) : List QueueItem :=
  emitted.map QueueItem.message ++ (if returnsNormally then [QueueItem.sentinel] else [])

/-- RestInput.stream_response's reader loop, run against the sequence of
items the worker puts on the queue: pop items in FIFO order; on the
sentinel stop; otherwise yield json.dumps(item) + "\n". If the queue runs
out with no sentinel the blocking q.get() never returns, so no terminated
output sequence exists: that outcome is none. -/
def stream_response : List QueueItem → Option (List String)
  | [] => none
  | QueueItem.sentinel :: _ => some []
  | QueueItem.message m :: rest =>
    (stream_response rest).map (fun tail => (jsonDumps m ++ ("\n")) :: tail)

/-- One call a dialogue callback can make on a sink: send_response or any
of the primitive send methods. -/
inductive ApiCall
  | response (recipient_id : String) (message : Payload)
  | text (recipient_id : String) (message : Option String)
  | image (recipient_id : String) (image_url : String)
  | attach (recipient_id : String) (attachment : String)
  | textWithButtons (recipient_id : String) (message : Option String) (buttons : List Button)
  | custom (recipient_id : String) (elements : List Element)
deriving DecidableEq

/-- Run one ApiCall against a channel. -/
def runCall {σ : Type} (ch : OutputChannel σ) : ApiCall → σ → Except ChannelError σ
  | ApiCall.response r p, s => sendResponse ch r p s
  | ApiCall.text r m, s => ch.send_text_message r m s
  | ApiCall.image r u, s => ch.send_image_url r u s
  | ApiCall.attach r a, s => ch.send_attachment r a s
  | ApiCall.textWithButtons r m b, s => ch.send_text_with_buttons r m b s
  | ApiCall.custom r es, s => ch.send_custom_message r es s

/-- Run a sequence of calls against a channel, threading the state;
an exception aborts the run. -/
def runCalls {σ : Type} (ch : OutputChannel σ) : List ApiCall → σ → Except ChannelError σ
  | [], s => Except.ok s
  | c :: rest, s => (runCall ch c s).bind (runCalls ch rest)

/-- Whether at least one of the four content keys survived the None
filtering, i.e. is present in the stored dict at all. -/
def hasContentKey (m : RenderedMessage) : Bool :=
  m.text.isSome || m.image.isSome || m.buttons.isSome || m.attachment.isSome

/-- Whether at least one of the four content keys is present AND carries a
non-empty value (a non-empty string, or a non-empty button list). -/
def hasNonEmptyContent (m : RenderedMessage) : Bool :=
  (match m.text with | some t => !(t == ("")) | none => false) ||
  (match m.image with | some u => !(u == ("")) | none => false) ||
  (match m.buttons with | some bs => !bs.isEmpty | none => false) ||
  (match m.attachment with | some a => !(a == ("")) | none => false)

theorem except_bind_ok {E α β : Type} {x : Except E α} {g : α → Except E β} {b : β}
    (h : x.bind g = Except.ok b) : ∃ a, x = Except.ok a ∧ g a = Except.ok b := by
  cases x with
  | error e => simp [Except.bind] at h
  | ok a => exact ⟨a, rfl, h⟩

theorem ok_bind {E α β : Type} (a : α) (g : α → Except E β) :
    (Except.ok a : Except E α).bind g = g a := rfl

theorem error_bind {E α β : Type} (e : E) (g : α → Except E β) :
    (Except.error e : Except E α).bind g = Except.error e := rfl

theorem append_newline_ne_done (s : String) : s ++ ("\n") ≠ ("DONE") := by
  intro h
  have h2 : (s ++ ("\n")).data = (("DONE") : String).data := by rw [h]
  rw [String.data_append] at h2
  have h3 : (s.data ++ (("\n") : String).data).getLast? = ((("DONE") : String).data).getLast? := by
    rw [h2]
  have hn : (("\n") : String).data = ['\n'] := rfl
  have hd : (("DONE") : String).data = ['D', 'O', 'N', 'E'] := rfl
  rw [hn, hd] at h3
  simp at h3

/-- C1: for a dialogue callback that returns normally after emitting
messages m1..mk through the queued sink, the reader produced by
stream_response yields exactly the JSON serialization of each mi followed
by a newline, in emission order, and then terminates; the "DONE" sentinel
is never among the yielded strings. -/
theorem stream_response_yields_messages_in_order (emitted : List RenderedMessage) :
    stream_response (on_message_wrapper emitted true) =
      some (emitted.map (fun m => jsonDumps m ++ ("\n"))) ∧
    ((emitted.map (fun m => jsonDumps m ++ ("\n"))).contains ("DONE")) = false := by
  constructor
  · induction emitted with
    | nil => rfl
    | cons m ms ih =>
      simp only [on_message_wrapper, List.map_cons, List.cons_append] at ih ⊢
      rw [stream_response, ih]
      rfl
  · induction emitted with
    | nil => rfl
    | cons m ms ih =>
      rw [List.map_cons, List.contains_cons, ih, Bool.or_false, beq_eq_false_iff_ne]
      exact Ne.symm (append_newline_ne_done (jsonDumps m))

/-- C2 as written fails on the code: on_message_wrapper is straight-line,
so a callback that raises after emitting one message leaves the queue
without the sentinel, and the reader never reaches end-of-sequence. -/
theorem failing_callback_reader_blocks :
    ((on_message_wrapper [buildMessage ("u") (some ("hi")) none none none] false).contains
        QueueItem.sentinel) = false ∧
    stream_response (on_message_wrapper [buildMessage ("u") (some ("hi")) none none none] false) =
      none := by
  decide

/-- C2 amended: the sentinel push runs only when the dialogue callback
returns normally; when the callback raises, no sentinel is put on the
queue and the reader's blocking pop never yields a terminated sequence,
whatever was emitted before the failure. -/
theorem no_sentinel_after_callback_failure (emitted : List RenderedMessage) :
    ((on_message_wrapper emitted false).contains QueueItem.sentinel) = false ∧
    stream_response (on_message_wrapper emitted false) = none := by
  constructor
  · induction emitted with
    | nil => rfl
    | cons m ms ih =>
      simp only [on_message_wrapper, List.map_cons, List.cons_append, List.contains_cons] at ih ⊢
      rw [ih, Bool.or_false, beq_eq_false_iff_ne]
      intro h
      exact QueueItem.noConfusion h
  · induction emitted with
    | nil => rfl
    | cons m ms ih =>
      simp only [on_message_wrapper, List.map_cons, List.cons_append] at ih ⊢
      rw [stream_response, ih]
      rfl

/-- C6 as written fails on the code: for a request with no sender field,
_extract_sender hands None to UserMessage, but UserMessage.__init__
substitutes the constant "default", so the callback does not observe a
null sender (the null message text, by contrast, is kept). -/
theorem missing_sender_gets_default :
    extractSender (WebRequest.mk none none) = none ∧
    ((UserMessage.make (extractMessage (WebRequest.mk none none))
        (extractSender (WebRequest.mk none none))).sender_id).isSome = true ∧
    (UserMessage.make (extractMessage (WebRequest.mk none none))
        (extractSender (WebRequest.mk none none))).sender_id = some DEFAULT_SENDER_ID ∧
    (UserMessage.make (extractMessage (WebRequest.mk none none))
        (extractSender (WebRequest.mk none none))).text = none := by
  decide

/-- C6 amended: a missing message field is passed through to the dialogue
callback as null text, unvalidated; a missing sender field is not passed
through as null but replaced by the constant "default" in
UserMessage.__init__. -/
theorem request_fields_to_user_message (req : WebRequest) :
    (UserMessage.make (extractMessage req) (extractSender req)).text = req.message ∧
    (UserMessage.make (extractMessage req) (extractSender req)).sender_id =
      some (req.sender.getD DEFAULT_SENDER_ID) := by
  cases req with
  | mk sender message =>
    cases sender with
    | none => exact ⟨rfl, rfl⟩
    | some s => exact ⟨rfl, rfl⟩

/-- C3: one send_response call takes at most one primary branch, tested in
the order elements, buttons, text with the first truthy field winning, and
— independently of the primary branch — additionally dispatches an image
message when image is truthy and an attachment message when attachment is
truthy, in that order after the primary messages. -/
theorem send_response_dispatch_precedence (r : String) (p : Payload) :
    sendResponse traceChannel r p [] = Except.ok (
      (if listTruthy p.elements then [TraceCall.custom r (p.elements.getD [])]
        else if listTruthy p.buttons then [TraceCall.textWithButtons r p.text (p.buttons.getD [])]
        else if strTruthy p.text then [TraceCall.text r p.text]
        else []) ++
      ((if strTruthy p.image then [TraceCall.image r (p.image.getD (""))] else []) ++
        (if strTruthy p.attachment then [TraceCall.attach r (p.attachment.getD (""))] else []))) := by
  unfold sendResponse traceChannel
  cases h1 : listTruthy p.elements <;> cases h2 : listTruthy p.buttons <;>
    cases h3 : strTruthy p.text <;> cases h4 : strTruthy p.image <;>
      cases h5 : strTruthy p.attachment <;> simp [h1, h2, h3, h4, h5, Except.bind]

/-- C10: send_response tests the payload fields for Python truthiness, not
presence: an empty-string text and an empty buttons list are skipped as if
absent, so text "" with an image dispatches only the image message, and a
non-empty text with an empty buttons list dispatches a plain text message
rather than a text-with-buttons message. -/
theorem send_response_tests_truthiness (r t u : String) (ht : t ≠ ("")) (hu : u ≠ ("")) :
    sendResponse traceChannel r (Payload.mk (some ("")) none none (some u) none) [] =
      Except.ok [TraceCall.image r u] ∧
    sendResponse traceChannel r (Payload.mk (some t) (some []) none none none) [] =
      Except.ok [TraceCall.text r (some t)] := by
  constructor
  · unfold sendResponse traceChannel
    simp [strTruthy, listTruthy, hu, Except.bind]
  · unfold sendResponse traceChannel
    simp [strTruthy, listTruthy, ht, Except.bind]

theorem send_response_tests_truthiness_witness :
    sendResponse traceChannel ("r") (Payload.mk (some ("")) none none (some ("http://img")) none) [] =
      Except.ok [TraceCall.image ("r") ("http://img")] ∧
    sendResponse traceChannel ("r") (Payload.mk (some ("hi")) (some []) none none none) [] =
      Except.ok [TraceCall.text ("r") (some ("hi"))] :=
  send_response_tests_truthiness ("r") ("hi") ("http://img") (by decide) (by decide)

theorem buttonLoop_length {τ : Type}
    (stm : String → Option String → List τ → Except ChannelError (List τ))
    (hstm : ∀ r2 m2 s2, ∃ o, stm r2 m2 s2 = Except.ok o ∧ o.length = s2.length + 1)
    (r : String) :
    ∀ (btns : List Button) (idx : Nat) (s : List τ),
      ∃ out, buttonLoop stm r idx btns s = Except.ok out ∧
        out.length = s.length + btns.length := by
  intro btns
  induction btns with
  | nil => exact fun idx s => ⟨s, rfl, by simp⟩
  | cons b rest ih =>
    intro idx s
    obtain ⟨mid, hmid, hmidlen⟩ := hstm r (some (button_to_string b idx)) s
    obtain ⟨out, hout, hlen⟩ := ih (idx + 1) mid
    refine ⟨out, ?_, ?_⟩
    · simp only [buttonLoop, hmid, ok_bind]
      exact hout
    · rw [hlen, hmidlen]
      simp only [List.length_cons]
      omega

theorem defaultTwb_length {τ : Type}
    (stm : String → Option String → List τ → Except ChannelError (List τ))
    (hstm : ∀ r2 m2 s2, ∃ o, stm r2 m2 s2 = Except.ok o ∧ o.length = s2.length + 1)
    (r : String) (m : Option String) (btns : List Button) (s : List τ) :
    ∃ out, defaultSendTextWithButtons stm r m btns s = Except.ok out ∧
      out.length = s.length + (1 + btns.length) := by
  obtain ⟨mid, hmid, hmidlen⟩ := hstm r m s
  obtain ⟨out, hout, hlen⟩ := buttonLoop_length stm hstm r btns 0 mid
  refine ⟨out, ?_, ?_⟩
  · simp only [defaultSendTextWithButtons, hmid, ok_bind]
    exact hout
  · rw [hlen, hmidlen]
    omega

theorem elementLoop_default_length {τ : Type}
    (stm : String → Option String → List τ → Except ChannelError (List τ))
    (hstm : ∀ r2 m2 s2, ∃ o, stm r2 m2 s2 = Except.ok o ∧ o.length = s2.length + 1)
    (r : String) :
    ∀ (es : List Element) (s : List τ),
      ∃ out, elementLoop (defaultSendTextWithButtons stm) r es s = Except.ok out ∧
        out.length = s.length + (es.map (fun e => 1 + e.buttons.length)).sum := by
  intro es
  induction es with
  | nil => exact fun s => ⟨s, rfl, by simp⟩
  | cons e rest ih =>
    intro s
    obtain ⟨mid, hmid, hmidlen⟩ :=
      defaultTwb_length stm hstm r (some (e.title ++ (" : ") ++ e.subtitle)) e.buttons s
    obtain ⟨out, hout, hlen⟩ := ih mid
    refine ⟨out, ?_, ?_⟩
    · simp only [elementLoop, hmid, ok_bind]
      exact hout
    · rw [hlen, hmidlen]
      simp only [List.map_cons, List.sum_cons]
      omega

theorem textOnly_stm_length :
    ∀ (r2 : String) (m2 : Option String) (s2 : List (String × Option String)),
      ∃ o, (fun r3 m3 (acc : List (String × Option String)) =>
          (Except.ok (acc ++ [(r3, m3)]) : Except ChannelError (List (String × Option String))))
          r2 m2 s2 = Except.ok o ∧ o.length = s2.length + 1 :=
  fun r2 m2 s2 => ⟨s2 ++ [(r2, m2)], rfl, by simp⟩

theorem elementLoop_collecting (r : String) :
    ∀ (es : List Element) (s : List RenderedMessage),
      elementLoop (collectingSendTextWithButtons listPersist) r es s =
        Except.ok (s ++ es.map (fun e =>
          buildMessage r (some (e.title ++ (" : ") ++ e.subtitle)) none (some e.buttons) none)) := by
  intro es
  induction es with
  | nil => intro s; simp [elementLoop]
  | cons e rest ih =>
    intro s
    simp only [elementLoop, collectingSendTextWithButtons, listPersist, ok_bind, ih,
      List.map_cons]
    simp

theorem sendResponse_elements_cons {σ : Type} (ch : OutputChannel σ) (r : String)
    (e : Element) (rest : List Element) (s out : σ)
    (h : ch.send_custom_message r (e :: rest) s = Except.ok out) :
    sendResponse ch r (Payload.mk none none (some (e :: rest)) none none) s = Except.ok out := by
  unfold sendResponse
  simp [listTruthy, strTruthy, h, Except.bind]

/-- C4 as written fails on the code for the collecting sink: it overrides
send_text_with_buttons to persist a single message per element, so one
element with one button yields one stored message, not 1 * (1 + 1) = 2. -/
theorem collecting_element_count_counterexample :
    sendResponse collectingChannel ("r")
        (Payload.mk none none (some [Element.mk ("T") ("S") [Button.mk ("b") ("/p")]]) none none)
        [] =
      Except.ok [buildMessage ("r") (some ("T : S")) none (some [Button.mk ("b") ("/p")]) none] ∧
    ((([buildMessage ("r") (some ("T : S")) none (some [Button.mk ("b") ("/p")]) none]).length ==
      1 * (1 + 1)) = false) := by
  exact ⟨rfl, by decide⟩

/-- C4 amended: for a payload carrying elements, a sink that overrides only
send_text_message (one message per call) produces, via the inherited
dispatch, one message per element plus one per button of that element —
sum over elements of (1 + number of buttons); the buffering/collecting
sink instead produces exactly one stored message per element, because it
overrides send_text_with_buttons. -/
theorem element_message_counts (r : String) (es : List Element) :
    (sendResponse textOnlyChannel r (Payload.mk none none (some es) none none) []).map
        List.length = Except.ok ((es.map (fun e => 1 + e.buttons.length)).sum) ∧
    (sendResponse collectingChannel r (Payload.mk none none (some es) none none) []).map
        List.length = Except.ok es.length := by
  cases es with
  | nil => exact ⟨rfl, rfl⟩
  | cons e rest =>
    constructor
    · obtain ⟨out, hout, hlen⟩ :=
        elementLoop_default_length
          (fun r3 m3 (acc : List (String × Option String)) =>
            (Except.ok (acc ++ [(r3, m3)]) : Except ChannelError (List (String × Option String))))
          textOnly_stm_length r (e :: rest) []
      rw [sendResponse_elements_cons textOnlyChannel r e rest [] out hout]
      rw [show (Except.ok out : Except ChannelError (List (String × Option String))).map
          List.length = Except.ok out.length from rfl]
      rw [hlen]
      simp
    · have h2 := elementLoop_collecting r (e :: rest) []
      rw [sendResponse_elements_cons collectingChannel r e rest [] _ h2]
      simp [Except.map]

/-- C5: on a sink with no send method overridden (the bare base class),
each primitive send operation — send_text_message, send_image_url,
send_attachment, send_text_with_buttons — surfaces the NotImplementedError
raised by send_text_message, which they all bottom out in; overriding
send_text_message alone is enough to make all four succeed. -/
theorem unoverridden_primitives_not_implemented {σ : Type} (r u a : String) (m : Option String)
    (btns : List Button) (s : σ) (s2 : List (String × Option String)) :
    ((baseChannel σ).send_text_message r m s =
        Except.error ChannelError.notImplementedTextMessage ∧
      (baseChannel σ).send_image_url r u s =
        Except.error ChannelError.notImplementedTextMessage ∧
      (baseChannel σ).send_attachment r a s =
        Except.error ChannelError.notImplementedTextMessage ∧
      (baseChannel σ).send_text_with_buttons r m btns s =
        Except.error ChannelError.notImplementedTextMessage) ∧
    ((∃ o, textOnlyChannel.send_text_message r m s2 = Except.ok o) ∧
      (∃ o, textOnlyChannel.send_image_url r u s2 = Except.ok o) ∧
      (∃ o, textOnlyChannel.send_attachment r a s2 = Except.ok o) ∧
      (∃ o, textOnlyChannel.send_text_with_buttons r m btns s2 = Except.ok o)) := by
  refine ⟨⟨rfl, rfl, rfl, rfl⟩, ⟨_, rfl⟩, ⟨_, rfl⟩, ⟨_, rfl⟩, ?_⟩
  obtain ⟨out, hout, _⟩ :=
    defaultTwb_length
      (fun r3 m3 (acc : List (String × Option String)) =>
        (Except.ok (acc ++ [(r3, m3)]) : Except ChannelError (List (String × Option String))))
      textOnly_stm_length r m btns s2
  exact ⟨out, hout⟩

theorem foldl_persist_append {α : Type} (f : α → RenderedMessage) :
    ∀ (parts : List α) (s : List RenderedMessage),
      parts.foldl (fun acc part => listPersist (f part) acc) s = s ++ parts.map f := by
  intro parts
  induction parts with
  | nil => intro s; simp
  | cons p rest ih =>
    intro s
    rw [List.foldl_cons, ih]
    simp [listPersist]

theorem pySplitGo_no_sep (sep : List Char) :
    ∀ (fuel : Nat) (rest acc : List Char),
      containsSeq sep rest = false → rest.length ≤ fuel →
      pySplitGo sep fuel acc rest = [acc.reverse ++ rest] := by
  intro fuel
  induction fuel with
  | zero =>
    intro rest acc h hlen
    cases rest with
    | nil => rw [List.append_nil]; rfl
    | cons c cs => simp at hlen
  | succ n ih =>
    intro rest acc h hlen
    cases rest with
    | nil => rw [List.append_nil]; rfl
    | cons c cs =>
      rw [containsSeq] at h
      have h1 : sep.isPrefixOf (c :: cs) = false := by
        cases hp : sep.isPrefixOf (c :: cs) with
        | false => rfl
        | true => rw [hp] at h; simp at h
      have h2 : containsSeq sep cs = false := by
        cases hp : containsSeq sep cs with
        | false => rfl
        | true => rw [hp] at h; simp at h
      rw [pySplitGo, if_neg (by rw [h1]; exact Bool.false_ne_true)]
      rw [ih cs (c :: acc) h2 (Nat.le_of_succ_le_succ hlen)]
      simp

theorem pySplit_no_sep (m : String) (h : containsSeq (("\n\n") : String).data m.data = false) :
    pySplit ("\n\n") m = [m] := by
  have hg := pySplitGo_no_sep (("\n\n") : String).data m.data.length m.data [] h (Nat.le_refl _)
  unfold pySplit
  rw [hg]
  simp only [List.reverse_nil, List.nil_append, List.map_cons, List.map_nil]

/-- C7: the collecting sink's send_text_message splits its input on the
double-newline separator and appends one stored message per resulting
segment, in segment order; in particular a text in which "\n\n" does not
occur yields exactly one stored message carrying that text. -/
theorem collecting_text_message_splits (r m : String) (s : List RenderedMessage) :
    collectingChannel.send_text_message r (some m) s =
      Except.ok (s ++ (pySplit ("\n\n") m).map (fun part =>
        buildMessage r (some part) none none none)) ∧
    (containsSeq (("\n\n") : String).data m.data = false →
      collectingChannel.send_text_message r (some m) s =
        Except.ok (s ++ [buildMessage r (some m) none none none])) := by
  have h1 : collectingChannel.send_text_message r (some m) s =
      Except.ok (s ++ (pySplit ("\n\n") m).map (fun part =>
        buildMessage r (some part) none none none)) := by
    show collectingSendTextMessage listPersist r (some m) s = _
    rw [show collectingSendTextMessage listPersist r (some m) s =
        Except.ok ((pySplit ("\n\n") m).foldl
          (fun acc part => listPersist (buildMessage r (some part) none none none) acc) s)
      from rfl]
    rw [foldl_persist_append (fun part => buildMessage r (some part) none none none)]
  refine ⟨h1, fun h => ?_⟩
  rw [h1, pySplit_no_sep m h]
  simp

theorem collecting_text_message_splits_witness :
    containsSeq (("\n\n") : String).data (("hello") : String).data = false ∧
    collectingChannel.send_text_message ("r") (some ("hello")) [] =
      Except.ok ([] ++ [buildMessage ("r") (some ("hello")) none none none]) :=
  ⟨by decide, (collecting_text_message_splits ("r") ("hello") []).2 (by decide)⟩

/-- C8 as written fails on the code: splitting "a\n\n\n\na" on the double
newline yields an empty middle segment, so send_response makes the
collecting sink store a message whose only content field is the empty
string — none of {text, image, buttons, attachment} carries a non-empty
value in that stored message. -/
theorem empty_segment_message_counterexample :
    sendResponse collectingChannel ("r")
        (Payload.mk (some ("a\n\n\n\na")) none none none none) [] =
      Except.ok [buildMessage ("r") (some ("a")) none none none,
        buildMessage ("r") (some ("")) none none none,
        buildMessage ("r") (some ("a")) none none none] ∧
    hasNonEmptyContent (buildMessage ("r") (some ("")) none none none) = false := by
  exact ⟨rfl, rfl⟩

theorem mem_append_content {s t : List RenderedMessage}
    (hs : ∀ m ∈ s, hasContentKey m = true) (ht : ∀ m ∈ t, hasContentKey m = true) :
    ∀ m ∈ s ++ t, hasContentKey m = true := by
  intro m hm
  rcases List.mem_append.mp hm with h | h
  · exact hs m h
  · exact ht m h

theorem stm_content (r : String) (msg : Option String) (s out : List RenderedMessage)
    (hs : ∀ m ∈ s, hasContentKey m = true)
    (h : collectingSendTextMessage listPersist r msg s = Except.ok out) :
    ∀ m ∈ out, hasContentKey m = true := by
  cases msg with
  | none => exact absurd h (by simp [collectingSendTextMessage])
  | some mtext =>
    rw [show collectingSendTextMessage listPersist r (some mtext) s =
        Except.ok ((pySplit ("\n\n") mtext).foldl
          (fun acc part => listPersist (buildMessage r (some part) none none none) acc) s)
      from rfl,
      foldl_persist_append (fun part => buildMessage r (some part) none none none)] at h
    injection h with h
    subst h
    refine mem_append_content hs ?_
    intro m hm
    obtain ⟨part, _, hpm⟩ := List.mem_map.mp hm
    rw [← hpm]
    rfl

theorem twb_content (r : String) (msg : Option String) (btns : List Button)
    (s out : List RenderedMessage)
    (hs : ∀ m ∈ s, hasContentKey m = true)
    (h : collectingSendTextWithButtons listPersist r msg btns s = Except.ok out) :
    ∀ m ∈ out, hasContentKey m = true := by
  injection h with h
  subst h
  refine mem_append_content hs ?_
  intro m hm
  rw [List.mem_singleton.mp hm]
  simp [hasContentKey, buildMessage]

theorem image_content (r u : String) (s out : List RenderedMessage)
    (hs : ∀ m ∈ s, hasContentKey m = true)
    (h : collectingSendImageUrl listPersist r u s = Except.ok out) :
    ∀ m ∈ out, hasContentKey m = true := by
  injection h with h
  subst h
  refine mem_append_content hs ?_
  intro m hm
  rw [List.mem_singleton.mp hm]
  rfl

theorem attachment_content (r a : String) (s out : List RenderedMessage)
    (hs : ∀ m ∈ s, hasContentKey m = true)
    (h : collectingSendAttachment listPersist r a s = Except.ok out) :
    ∀ m ∈ out, hasContentKey m = true := by
  injection h with h
  subst h
  refine mem_append_content hs ?_
  intro m hm
  rw [List.mem_singleton.mp hm]
  rfl

theorem custom_content (r : String) (es : List Element) (s out : List RenderedMessage)
    (hs : ∀ m ∈ s, hasContentKey m = true)
    (h : defaultSendCustomMessage (collectingSendTextWithButtons listPersist) r es s =
      Except.ok out) :
    ∀ m ∈ out, hasContentKey m = true := by
  rw [show defaultSendCustomMessage (collectingSendTextWithButtons listPersist) r es s =
      elementLoop (collectingSendTextWithButtons listPersist) r es s from rfl,
    elementLoop_collecting] at h
  injection h with h
  subst h
  refine mem_append_content hs ?_
  intro m hm
  obtain ⟨e, _, hem⟩ := List.mem_map.mp hm
  rw [← hem]
  rfl

theorem sendResponse_collecting_content (r : String) (p : Payload) (s out : List RenderedMessage)
    (hs : ∀ m ∈ s, hasContentKey m = true)
    (h : sendResponse collectingChannel r p s = Except.ok out) :
    ∀ m ∈ out, hasContentKey m = true := by
  unfold sendResponse at h
  obtain ⟨s1, h1, hrest⟩ := except_bind_ok h
  obtain ⟨s2, h2, h3⟩ := except_bind_ok hrest
  have hs1 : ∀ m ∈ s1, hasContentKey m = true := by
    split at h1
    · exact custom_content r _ s s1 hs h1
    · split at h1
      · exact twb_content r p.text _ s s1 hs h1
      · split at h1
        · exact stm_content r p.text s s1 hs h1
        · injection h1 with h1
          rw [← h1]
          exact hs
  have hs2 : ∀ m ∈ s2, hasContentKey m = true := by
    split at h2
    · exact image_content r _ s1 s2 hs1 h2
    · injection h2 with h2
      rw [← h2]
      exact hs1
  split at h3
  · exact attachment_content r _ s2 out hs2 h3
  · injection h3 with h3
    rw [← h3]
    exact hs2

/-- C8 amended: every message a collecting sink stores — under any sequence
of send_response or primitive send calls — retains at least one of the
keys text, image, buttons, attachment in its stored dict (the None values
being filtered out, at least one non-None field is always set); the value
under such a key may however be empty, e.g. an empty text segment from
consecutive double newlines. -/
theorem collecting_messages_keep_content (calls : List ApiCall) (s out : List RenderedMessage)
    (hs : ∀ m ∈ s, hasContentKey m = true)
    (h : runCalls collectingChannel calls s = Except.ok out) :
    ∀ m ∈ out, hasContentKey m = true := by
  induction calls generalizing s with
  | nil =>
    injection h with h
    rw [← h]
    exact hs
  | cons c rest ih =>
    obtain ⟨mid, hmid, hrest⟩ := except_bind_ok h
    have hmidc : ∀ m ∈ mid, hasContentKey m = true := by
      cases c with
      | response r p => exact sendResponse_collecting_content r p s mid hs hmid
      | text r m2 => exact stm_content r m2 s mid hs hmid
      | image r u => exact image_content r u s mid hs hmid
      | attach r a => exact attachment_content r a s mid hs hmid
      | textWithButtons r m2 b => exact twb_content r m2 b s mid hs hmid
      | custom r es => exact custom_content r es s mid hs hmid
    exact ih mid hmidc hrest

theorem collecting_messages_keep_content_witness :
    hasContentKey (buildMessage ("u") (some ("hi")) none none none) = true :=
  collecting_messages_keep_content
    [ApiCall.response ("u") (Payload.mk (some ("hi")) none none none none)] []
    [buildMessage ("u") (some ("hi")) none none none]
    (by simp) rfl
    (buildMessage ("u") (some ("hi")) none none none) (by simp)

theorem bind_map_comm {E σ₁ σ₂ : Type} (f : σ₁ → σ₂) (x : Except E σ₁)
    (g : σ₁ → Except E σ₁) (g2 : σ₂ → Except E σ₂)
    (hg : ∀ a2, (g a2).map f = g2 (f a2)) :
    (x.bind g).map f = (x.map f).bind g2 := by
  cases x with
  | error e => rfl
  | ok a2 => exact hg a2

theorem sim_fold {σ₁ σ₂ : Type} (f : σ₁ → σ₂)
    (p₁ : RenderedMessage → σ₁ → σ₁) (p₂ : RenderedMessage → σ₂ → σ₂)
    (hp : ∀ m s, f (p₁ m s) = p₂ m (f s)) (r : String) :
    ∀ (parts : List String) (s : σ₁),
      f (parts.foldl (fun acc part => p₁ (buildMessage r (some part) none none none) acc) s) =
        parts.foldl (fun acc part => p₂ (buildMessage r (some part) none none none) acc) (f s) := by
  intro parts
  induction parts with
  | nil => intro s; rfl
  | cons q rest ih =>
    intro s
    rw [List.foldl_cons, List.foldl_cons, ih, hp]

theorem sim_stm {σ₁ σ₂ : Type} (f : σ₁ → σ₂)
    (p₁ : RenderedMessage → σ₁ → σ₁) (p₂ : RenderedMessage → σ₂ → σ₂)
    (hp : ∀ m s, f (p₁ m s) = p₂ m (f s)) (r : String) (msg : Option String) (s : σ₁) :
    (collectingSendTextMessage p₁ r msg s).map f = collectingSendTextMessage p₂ r msg (f s) := by
  cases msg with
  | none => rfl
  | some mtext => exact congrArg Except.ok (sim_fold f p₁ p₂ hp r (pySplit ("\n\n") mtext) s)

theorem sim_twb {σ₁ σ₂ : Type} (f : σ₁ → σ₂)
    (p₁ : RenderedMessage → σ₁ → σ₁) (p₂ : RenderedMessage → σ₂ → σ₂)
    (hp : ∀ m s, f (p₁ m s) = p₂ m (f s)) (r : String) (msg : Option String)
    (btns : List Button) (s : σ₁) :
    (collectingSendTextWithButtons p₁ r msg btns s).map f =
      collectingSendTextWithButtons p₂ r msg btns (f s) :=
  congrArg Except.ok (hp (buildMessage r msg none (some btns) none) s)

theorem sim_image {σ₁ σ₂ : Type} (f : σ₁ → σ₂)
    (p₁ : RenderedMessage → σ₁ → σ₁) (p₂ : RenderedMessage → σ₂ → σ₂)
    (hp : ∀ m s, f (p₁ m s) = p₂ m (f s)) (r u : String) (s : σ₁) :
    (collectingSendImageUrl p₁ r u s).map f = collectingSendImageUrl p₂ r u (f s) :=
  congrArg Except.ok (hp (buildMessage r none (some u) none none) s)

theorem sim_attach {σ₁ σ₂ : Type} (f : σ₁ → σ₂)
    (p₁ : RenderedMessage → σ₁ → σ₁) (p₂ : RenderedMessage → σ₂ → σ₂)
    (hp : ∀ m s, f (p₁ m s) = p₂ m (f s)) (r a : String) (s : σ₁) :
    (collectingSendAttachment p₁ r a s).map f = collectingSendAttachment p₂ r a (f s) :=
  congrArg Except.ok (hp (buildMessage r none none none (some a)) s)

theorem sim_elementLoop {σ₁ σ₂ : Type} (f : σ₁ → σ₂)
    (p₁ : RenderedMessage → σ₁ → σ₁) (p₂ : RenderedMessage → σ₂ → σ₂)
    (hp : ∀ m s, f (p₁ m s) = p₂ m (f s)) (r : String) :
    ∀ (es : List Element) (s : σ₁),
      (elementLoop (collectingSendTextWithButtons p₁) r es s).map f =
        elementLoop (collectingSendTextWithButtons p₂) r es (f s) := by
  intro es
  induction es with
  | nil => intro s; rfl
  | cons e rest ih =>
    intro s
    simp only [elementLoop, collectingSendTextWithButtons, ok_bind]
    rw [ih, hp]

theorem sim_sendResponse {σ₁ σ₂ : Type} (f : σ₁ → σ₂)
    (p₁ : RenderedMessage → σ₁ → σ₁) (p₂ : RenderedMessage → σ₂ → σ₂)
    (hp : ∀ m s, f (p₁ m s) = p₂ m (f s)) (r : String) (p : Payload) (s : σ₁) :
    (sendResponse (collectingMethods p₁) r p s).map f =
      sendResponse (collectingMethods p₂) r p (f s) := by
  have hattach : ∀ a2 : σ₁,
      ((if strTruthy p.attachment then
          (collectingMethods p₁).send_attachment r (p.attachment.getD ("")) a2
        else Except.ok a2).map f) =
      (if strTruthy p.attachment then
          (collectingMethods p₂).send_attachment r (p.attachment.getD ("")) (f a2)
        else Except.ok (f a2)) := by
    intro a2
    cases hb : strTruthy p.attachment with
    | false => simp [hb, Except.map]
    | true => simp only [hb, if_pos]; exact sim_attach f p₁ p₂ hp r _ a2
  have himage : ∀ a2 : σ₁,
      ((if strTruthy p.image then
          (collectingMethods p₁).send_image_url r (p.image.getD ("")) a2
        else Except.ok a2).map f) =
      (if strTruthy p.image then
          (collectingMethods p₂).send_image_url r (p.image.getD ("")) (f a2)
        else Except.ok (f a2)) := by
    intro a2
    cases hb : strTruthy p.image with
    | false => simp [hb, Except.map]
    | true => simp only [hb, if_pos]; exact sim_image f p₁ p₂ hp r _ a2
  have hprimary :
      ((if listTruthy p.elements then
          (collectingMethods p₁).send_custom_message r (p.elements.getD []) s
        else if listTruthy p.buttons then
          (collectingMethods p₁).send_text_with_buttons r p.text (p.buttons.getD []) s
        else if strTruthy p.text then
          (collectingMethods p₁).send_text_message r p.text s
        else Except.ok s).map f) =
      (if listTruthy p.elements then
          (collectingMethods p₂).send_custom_message r (p.elements.getD []) (f s)
        else if listTruthy p.buttons then
          (collectingMethods p₂).send_text_with_buttons r p.text (p.buttons.getD []) (f s)
        else if strTruthy p.text then
          (collectingMethods p₂).send_text_message r p.text (f s)
        else Except.ok (f s)) := by
    cases h1 : listTruthy p.elements with
    | true =>
      simp only [h1, if_pos]
      exact sim_elementLoop f p₁ p₂ hp r (p.elements.getD []) s
    | false =>
      cases h2 : listTruthy p.buttons with
      | true =>
        simp only [h1, h2, if_pos, Bool.false_eq_true, if_false]
        exact sim_twb f p₁ p₂ hp r p.text (p.buttons.getD []) s
      | false =>
        cases h3 : strTruthy p.text with
        | true =>
          simp only [h1, h2, h3, if_pos, Bool.false_eq_true, if_false]
          exact sim_stm f p₁ p₂ hp r p.text s
        | false => simp [h1, h2, h3, Except.map]
  have hinner : ∀ a2 : σ₁,
      (((if strTruthy p.image then
            (collectingMethods p₁).send_image_url r (p.image.getD ("")) a2
          else Except.ok a2).bind
        (fun s2 => if strTruthy p.attachment then
            (collectingMethods p₁).send_attachment r (p.attachment.getD ("")) s2
          else Except.ok s2)).map f) =
      ((fun s1 => (if strTruthy p.image then
            (collectingMethods p₂).send_image_url r (p.image.getD ("")) s1
          else Except.ok s1).bind
        (fun s2 => if strTruthy p.attachment then
            (collectingMethods p₂).send_attachment r (p.attachment.getD ("")) s2
          else Except.ok s2)) (f a2)) := by
    intro a2
    rw [bind_map_comm f _ _
      (fun s2 => if strTruthy p.attachment then
          (collectingMethods p₂).send_attachment r (p.attachment.getD ("")) s2
        else Except.ok s2)
      hattach]
    rw [himage a2]
  unfold sendResponse
  rw [bind_map_comm f _ _
    (fun s1 => (if strTruthy p.image then
          (collectingMethods p₂).send_image_url r (p.image.getD ("")) s1
        else Except.ok s1).bind
      (fun s2 => if strTruthy p.attachment then
          (collectingMethods p₂).send_attachment r (p.attachment.getD ("")) s2
        else Except.ok s2))
    hinner]
  rw [hprimary]

theorem sim_runCall {σ₁ σ₂ : Type} (f : σ₁ → σ₂)
    (p₁ : RenderedMessage → σ₁ → σ₁) (p₂ : RenderedMessage → σ₂ → σ₂)
    (hp : ∀ m s, f (p₁ m s) = p₂ m (f s)) (c : ApiCall) (s : σ₁) :
    (runCall (collectingMethods p₁) c s).map f = runCall (collectingMethods p₂) c (f s) := by
  cases c with
  | response r p => exact sim_sendResponse f p₁ p₂ hp r p s
  | text r m2 => exact sim_stm f p₁ p₂ hp r m2 s
  | image r u => exact sim_image f p₁ p₂ hp r u s
  | attach r a => exact sim_attach f p₁ p₂ hp r a s
  | textWithButtons r m2 b => exact sim_twb f p₁ p₂ hp r m2 b s
  | custom r es => exact sim_elementLoop f p₁ p₂ hp r es s

theorem sim_runCalls {σ₁ σ₂ : Type} (f : σ₁ → σ₂)
    (p₁ : RenderedMessage → σ₁ → σ₁) (p₂ : RenderedMessage → σ₂ → σ₂)
    (hp : ∀ m s, f (p₁ m s) = p₂ m (f s)) :
    ∀ (calls : List ApiCall) (s : σ₁),
      (runCalls (collectingMethods p₁) calls s).map f =
        runCalls (collectingMethods p₂) calls (f s) := by
  intro calls
  induction calls with
  | nil => intro s; rfl
  | cons c rest ih =>
    intro s
    rw [runCalls, runCalls, bind_map_comm f _ _ _ (fun a2 => ih a2)]
    rw [sim_runCall f p₁ p₂ hp c s]

/-- C9: the queued sink's emit semantics equal the collecting sink's: for
every sequence of send_response / primitive send calls, the messages the
queue sink pushes onto its FIFO queue (in push order) are exactly the
messages the collecting sink appends to its local list; the two differ
only in where each constructed message is persisted. -/
theorem queue_sink_matches_collecting_sink (calls : List ApiCall) :
    (runCalls queueChannel calls (FifoQueue.mk [])).map FifoQueue.items =
      runCalls collectingChannel calls [] :=
  sim_runCalls FifoQueue.items queuePersist listPersist (fun _ _ => rfl) calls (FifoQueue.mk [])
